import Mathlib

/-!
# Authentication layer of the GraphQL user service

A shallow embedding of `src/index.js` (resolvers and the request context hook)
and `src/db.js` (the `User` table), with the two libraries the resolvers call,
bcrypt and jsonwebtoken, taken as parameters.

* The store is a value of type `Store`; resolvers thread a `World` which also
  records every call made on the store, in order.
* A rejected promise or a thrown error is `Except.error`.
* Numbers are exact integers. GraphQL `Int` arguments are 32 bit, so the
  offset computed by `getUsers` stays below `2 ^ 62`; it is exact in a double
  up to `2 ^ 53`, far above the size of any table.
* Sequelize timestamps (`createdAt`, `updatedAt`) are left out of the rows;
  no resolver reads them.
-/

set_option autoImplicit false

namespace WebServices

/-! ## Data model (src/db.js) -/

/-- The `Role` enum of the `User` table. -/
inductive Role where
  | ADMIN
  | USER
  | GUEST
deriving DecidableEq, Repr

/-- A row of the `User` table. `id` is the primary key; every other column is
declared without `allowNull: false`, hence nullable. -/
structure User where
  id : Nat
  isActive : Option Bool
  age : Option Int
  name : Option String
  email : Option String
  role : Option Role
  password : Option String
deriving DecidableEq, Repr

/-- The `User` table: its rows in rowid order, and the largest id ever handed
out (the counter SQLite keeps for an `autoIncrement` key). -/
structure Store where
  users : List User
  seq : Nat
deriving DecidableEq, Repr

/-- The object handed to `User.create` by the register resolver: the three
GraphQL arguments, with `password` overwritten. -/
structure UserDoc where
  email : String
  name : String
  password : String
deriving DecidableEq, Repr

/-- A call made on the store. -/
inductive DbOp where
  | findOne (email : String)
  | create (doc : UserDoc)
  | findAll (offset limit : Int)
  | findByPk (id : Int)
deriving DecidableEq, Repr

/-- The store together with the log of the calls made on it so far. -/
structure World where
  db : Store
  trace : List DbOp
deriving DecidableEq, Repr

/-- A JavaScript error value: constructor name, message, and the
`extensions.code` of a `GraphQLError` when it has one. -/
structure JsError where
  name : String
  message : String
  code : Option String
deriving DecidableEq, Repr

/-- The result of an awaited call: a value or a thrown error, and the world
after the call. -/
abbrev Res (α : Type) := Except JsError α × World

/-! ## The libraries, as parameters -/

/-- The two bcrypt entry points used by the resolvers. `hash data rounds salt`
is `bcrypt.hash(data, rounds)` when the library draws `salt`;
`compare data encrypted` is `bcrypt.compare(data, encrypted)`, whose second
argument is a nullable column. -/
structure Bcrypt where
  hash : String → Nat → String → String
  compare : String → Option String → Except JsError Bool

/-- The claim signed into a token by the login resolver: the email column of
the row found, nullable like the column. -/
structure JwtClaim where
  email : Option String
deriving DecidableEq, Repr

/-- The decoded payload returned by `jwt.verify`. -/
structure JwtPayload where
  email : Option String
  iat : Nat
  exp : Nat
deriving DecidableEq, Repr

/-- The two jsonwebtoken entry points used by the service.
`sign claim secret expiresIn now` is `jwt.sign(claim, secret, { expiresIn })`
called at clock time `now` (seconds); `verify token secret now` is
`jwt.verify(token, secret)` at clock time `now`. Token and secret may both be
`undefined`. -/
structure Jwt where
  sign : JwtClaim → Option String → Nat → Nat → Except JsError String
  verify : Option String → Option String → Nat → Except JsError JwtPayload

/-- The process environment: `process.env.JWT_SECRET`. -/
structure Env where
  JWT_SECRET : Option String
deriving DecidableEq, Repr

/-! ## Store operations (Sequelize model `User`) -/

/-- `User.findOne({ where: { email } })`: the first row whose email column
equals the given string, or `null`. -/
def User.findOne (email : String) (w : World) : Option User × World :=
  (w.db.users.find? (fun u => u.email == some email),
   { w with trace := w.trace ++ [DbOp.findOne email] })

/-- The id given to the next inserted row: one more than the largest id that
ever existed in the table. -/
def Store.nextId (s : Store) : Nat :=
  (s.users.foldl (fun m u => max m u.id) s.seq) + 1

/-- `User.create(doc)`: rejects when the `unique: true` constraint on `email`
is violated, otherwise appends a row with a fresh id, `isActive` at its
default `true`, and the columns absent from `doc` null. -/
def User.create (doc : UserDoc) (w : World) : Res User :=
  let tr := w.trace ++ [DbOp.create doc]
  if w.db.users.any (fun u => u.email == some doc.email) then
    (.error ⟨"SequelizeUniqueConstraintError", "Validation error", none⟩,
     { w with trace := tr })
  else
    let row : User :=
      { id := w.db.nextId, isActive := some true, age := none,
        name := some doc.name, email := some doc.email, role := none,
        password := some doc.password }
    (.ok row, { db := { users := w.db.users ++ [row], seq := row.id }, trace := tr })

/-- `User.findAll({ offset, limit })`, which Sequelize renders as
`LIMIT offset, limit`. In SQLite a negative offset counts as zero and a
negative limit is no limit. -/
def User.findAll (offset limit : Int) (w : World) : List User × World :=
  let rows := w.db.users.drop offset.toNat
  (if limit < 0 then rows else rows.take limit.toNat,
   { w with trace := w.trace ++ [DbOp.findAll offset limit] })

/-- `User.findByPk(id)`: the row with that primary key, or `null`. -/
def User.findByPk (id : Int) (w : World) : Option User × World :=
  (w.db.users.find? (fun u => (u.id : Int) == id),
   { w with trace := w.trace ++ [DbOp.findByPk id] })

/-! ## Resolvers (src/index.js) -/

/-- Arguments of the `login` mutation. -/
structure LoginArgs where
  email : String
  password : String
deriving DecidableEq, Repr

/-- The `LoginResult` object. -/
structure LoginResult where
  isSuccess : Bool
  message : String
  token : String
deriving DecidableEq, Repr

/-- Arguments of the `register` mutation. -/
structure RegisterArgs where
  email : String
  name : String
  password : String
deriving DecidableEq, Repr

/-- The `RegisterationResponse` object. -/
structure RegisterationResponse where
  isSuccess : Bool
  message : String
deriving DecidableEq, Repr

/-- The `PaginationInput` object. -/
structure PaginationInput where
  page : Int
  count : Int
deriving DecidableEq, Repr

/-- The per-request context built by the context hook. -/
structure Context where
  loggedUser : Option JwtPayload
deriving DecidableEq, Repr

/-- `new Error("Invalid Credentials")`. -/
def invalidCredentials : JsError := ⟨"Error", "Invalid Credentials", none⟩

/-- The `GraphQLError` thrown on a duplicate email, with `extensions.code`
set to `DUPLICATE_EMAIL`. -/
def duplicateEmail : JsError :=
  ⟨"GraphQLError", "The email you entered is duplicate", some "DUPLICATE_EMAIL"⟩

/-- `new Error("UNAUTHORIZED")`. -/
def unauthorized : JsError := ⟨"Error", "UNAUTHORIZED", none⟩

/-- The `expiresIn: "1d"` option of the login resolver, in seconds. -/
def expiresIn : Nat := 24 * 60 * 60

/-- The login resolver (src/index.js, lines 71 to 88), called at clock time
`now`. -/
def loginResolver (bcrypt : Bcrypt) (jwt : Jwt) (env : Env) (now : Nat)
    (args : LoginArgs) (w : World) : Res LoginResult :=
  match User.findOne args.email w with
  | (none, w1) => (.error invalidCredentials, w1)
  | (some user, w1) =>
    match bcrypt.compare args.password user.password with
    | .error e => (.error e, w1)
    | .ok false => (.error invalidCredentials, w1)
    | .ok true =>
      match jwt.sign ⟨user.email⟩ env.JWT_SECRET expiresIn now with
      | .error e => (.error e, w1)
      | .ok userToken =>
        (.ok { isSuccess := true, message := "login succeeded", token := userToken }, w1)

/-- The register resolver (src/index.js, lines 90 to 105); `salt` is the salt
drawn by `bcrypt.hash` during the call. -/
def registerUserResolver (bcrypt : Bcrypt) (salt : String)
    (user : RegisterArgs) (w : World) : Res RegisterationResponse :=
  match User.findOne user.email w with
  | (some _, w1) => (.error duplicateEmail, w1)
  | (none, w1) =>
    let userDoc : UserDoc :=
      { email := user.email, name := user.name,
        password := bcrypt.hash user.password 12 salt }
    match User.create userDoc w1 with
    | (.error e, w2) => (.error e, w2)
    | (.ok _, w2) => (.ok { isSuccess := true, message := "User registered successfully" }, w2)

/-- JavaScript truthiness of `context.loggedUser?.email`. -/
def loggedEmailTruthy (context : Context) : Bool :=
  match context.loggedUser with
  | none => false
  | some payload =>
    match payload.email with
    | none => false
    | some e => e != ""

/-- The `profile` query: returns the empty object, here the empty list of
fields. -/
def profile : List (String × String) := []

/-- The `getUsers` query (src/index.js, lines 124 to 137). -/
def getUsers (args : PaginationInput) (context : Context) (w : World) : Res (List User) :=
  if !loggedEmailTruthy context then
    (.error unauthorized, w)
  else
    match User.findAll ((args.page - 1) * args.count) args.count w with
    | (rows, w1) => (.ok rows, w1)

/-- The `getUserByID` query (src/index.js, lines 138 to 141). The source
resolver takes `(parent, args)` only: the context is never read. -/
def getUserByID (userId : Int) (_context : Context) (w : World) : Res (Option User) :=
  match User.findByPk userId w with
  | (row, w1) => (.ok row, w1)

/-- The context hook of the server (src/index.js, lines 146 to 157), called at
clock time `now` with the `authorization` header of the request. Returns the
context and the errors written to the console. -/
def context (jwt : Jwt) (env : Env) (now : Nat) (authorization : Option String) :
    Context × List JsError :=
  match jwt.verify authorization env.JWT_SECRET now with
  | .ok payload => (⟨some payload⟩, [])
  | .error error => (⟨none⟩, [error])

/-! ## Consecutive page requests -/

/-- Requests pages `1, 2, ..., k` of `getUsers` one after the other with the
same `count` and identity, and concatenates the rows returned. -/
def getUsersPages (count : Int) (context : Context) : Nat → World → Res (List User)
  | 0, w => (.ok [], w)
  | k + 1, w =>
    match getUsersPages count context k w with
    | (.error e, w1) => (.error e, w1)
    | (.ok acc, w1) =>
      match getUsers ⟨(k : Int) + 1, count⟩ context w1 with
      | (.error e, w2) => (.error e, w2)
      | (.ok rows, w2) => (.ok (acc ++ rows), w2)

/-! ## Contracts assumed of the libraries -/

/-- A password verifies against every hash made from it. -/
def Bcrypt.Sound (b : Bcrypt) : Prop :=
  ∀ p rounds salt, b.compare p (some (b.hash p rounds salt)) = .ok true

/-- With a non-empty secret, signing succeeds and the token is a non-empty
string. Nothing is assumed of the empty secret, which jsonwebtoken refuses
like an absent one. -/
def Jwt.Issues (j : Jwt) : Prop :=
  ∀ c s ttl now, s ≠ "" → ∃ tok, j.sign c (some s) ttl now = .ok tok ∧ tok ≠ ""

/-- Verifying an issued token under the same secret before its expiry
returns the claim that was signed. -/
def Jwt.RoundTrips (j : Jwt) : Prop :=
  ∀ c s ttl t0 tok, j.sign c (some s) ttl t0 = .ok tok →
    ∀ t, t0 ≤ t → t < t0 + ttl →
      ∃ p, j.verify (some tok) (some s) t = .ok p ∧ p.email = c.email

/-- Verifying an issued token at or after its expiry fails. -/
def Jwt.Expires (j : Jwt) : Prop :=
  ∀ c s ttl t0 tok, j.sign c (some s) ttl t0 = .ok tok →
    ∀ t, t0 + ttl ≤ t → ∃ e, j.verify (some tok) (some s) t = .error e

/-- Verifying an absent token fails. -/
def Jwt.RejectsAbsent (j : Jwt) : Prop :=
  ∀ s t, ∃ e, j.verify none s t = .error e

/-- Signing without a secret fails. -/
def Jwt.RejectsNoSecret (j : Jwt) : Prop :=
  ∀ c ttl t, ∃ e, j.sign c none ttl t = .error e

/-! ## A small concrete instance of the libraries, used in examples -/

/-- A toy hasher: tags the data; compares by hashing again. -/
def demoBcrypt : Bcrypt where
  hash := fun data _ _ => "$2b$" ++ data
  compare := fun data encrypted =>
    match encrypted with
    | none => .error ⟨"Error", "data and hash arguments required", none⟩
    | some h => .ok (h == "$2b$" ++ data)

/-- Toy token text: issue time and lifetime in unary, then the claim. -/
def demoEncode (iat ttl : Nat) (email : Option String) : String :=
  ⟨List.replicate iat 'i' ++ (List.replicate ttl 'x' ++
    (match email with
     | some e => '.' :: e.data
     | none => [',']))⟩

/-- Reads back a toy token: issue time, lifetime and claim. -/
def demoDecode : List Char → Option (Nat × Nat × Option String)
  | [] => none
  | c :: cs =>
    if c = '.' then some (0, 0, some ⟨cs⟩)
    else if c = ',' then (if cs = [] then some (0, 0, none) else none)
    else
      match demoDecode cs with
      | none => none
      | some (i, x, e) =>
        if c = 'i' then some (i + 1, x, e)
        else if c = 'x' then some (i, x + 1, e)
        else none

/-- The error jsonwebtoken throws when asked to sign without a secret. -/
def missingSecret : JsError := ⟨"Error", "secretOrPrivateKey must have a value", none⟩

/-- A toy token library over `demoEncode`. An empty secret is refused like an
absent one. -/
def demoJwt : Jwt where
  sign := fun claim secret ttl now =>
    match secret with
    | none => .error missingSecret
    | some s =>
      if s = "" then .error missingSecret
      else .ok (demoEncode now ttl claim.email)
  verify := fun token secret now =>
    match token, secret with
    | none, _ => .error ⟨"JsonWebTokenError", "jwt must be provided", none⟩
    | some _, none =>
      .error ⟨"JsonWebTokenError", "secret or public key must be provided", none⟩
    | some t, some s =>
      if s = "" then
        .error ⟨"JsonWebTokenError", "secret or public key must be provided", none⟩
      else
        match demoDecode t.data with
        | none => .error ⟨"JsonWebTokenError", "jwt malformed", none⟩
        | some (i, x, e) =>
          if now < i + x then .ok ⟨e, i, i + x⟩
          else .error ⟨"TokenExpiredError", "jwt expired", none⟩

/-- A registered account. -/
def demoUser : User :=
  { id := 1, isActive := some true, age := none, name := some "Real",
    email := some "real@x.com", role := none, password := some "$2b$secret" }

/-- A store with one registered account. -/
def demoStore : Store := { users := [demoUser], seq := 1 }

/-- The empty store. -/
def emptyStore : Store := { users := [], seq := 0 }

/-! ## Basic facts about the store operations -/

theorem findOne_fst (email : String) (w : World) :
    (User.findOne email w).1 = w.db.users.find? (fun u => u.email == some email) := rfl

theorem findOne_db (email : String) (w : World) :
    (User.findOne email w).2.db = w.db := rfl

/-- The login resolver never writes to the store. -/
theorem loginResolver_db (bcrypt : Bcrypt) (jwt : Jwt) (env : Env) (now : Nat)
    (args : LoginArgs) (w : World) :
    (loginResolver bcrypt jwt env now args w).2.db = w.db := by
  unfold loginResolver User.findOne
  generalize List.find? _ w.db.users = r
  cases r with
  | none => rfl
  | some u =>
    dsimp only
    cases bcrypt.compare args.password u.password with
    | error e => rfl
    | ok b =>
      cases b
      · rfl
      · dsimp only
        cases jwt.sign ⟨u.email⟩ env.JWT_SECRET expiresIn now <;> rfl

/-- No row with the email: the lookup by email returns nothing. -/
theorem find_none_of_no_account (users : List User) (email : String)
    (h : ∀ u ∈ users, u.email ≠ some email) :
    users.find? (fun u => u.email == some email) = none := by
  rw [List.find?_eq_none]
  intro u hu
  simpa using h u hu

/-- No row with the email: the uniqueness check of an insert passes. -/
theorem any_false_of_no_account (users : List User) (email : String)
    (h : ∀ u ∈ users, u.email ≠ some email) :
    users.any (fun u => u.email == some email) = false := by
  rw [List.any_eq_false]
  intro u hu
  simpa using h u hu

/-- Login when the lookup finds no row. -/
theorem loginResolver_absent (bcrypt : Bcrypt) (jwt : Jwt) (env : Env) (now : Nat)
    (args : LoginArgs) (w : World)
    (h : w.db.users.find? (fun u => u.email == some args.email) = none) :
    (loginResolver bcrypt jwt env now args w).1 = .error invalidCredentials := by
  unfold loginResolver User.findOne
  rw [h]

/-- Login when the lookup finds a row and the comparison has a given outcome. -/
theorem loginResolver_found (bcrypt : Bcrypt) (jwt : Jwt) (env : Env) (now : Nat)
    (args : LoginArgs) (w : World) (u : User)
    (h : w.db.users.find? (fun u => u.email == some args.email) = some u) :
    (loginResolver bcrypt jwt env now args w).1 =
      match bcrypt.compare args.password u.password with
      | .error e => .error e
      | .ok false => .error invalidCredentials
      | .ok true =>
        match jwt.sign ⟨u.email⟩ env.JWT_SECRET expiresIn now with
        | .error e => .error e
        | .ok t => .ok { isSuccess := true, message := "login succeeded", token := t } := by
  unfold loginResolver User.findOne
  rw [h]
  dsimp only
  cases bcrypt.compare args.password u.password with
  | error e => rfl
  | ok b =>
    cases b
    · rfl
    · dsimp only
      cases jwt.sign ⟨u.email⟩ env.JWT_SECRET expiresIn now <;> rfl

/-- The row found by an email lookup carries that email. -/
theorem email_of_find (users : List User) (email : String) (u : User)
    (h : users.find? (fun u => u.email == some email) = some u) :
    u.email = some email := by
  have := List.find?_some h
  simpa using this

/-- Registration when the store has no row with the email: the outcome and the
world after it, in full. -/
theorem registerUserResolver_fresh (bcrypt : Bcrypt) (salt : String)
    (user : RegisterArgs) (w : World)
    (h : ∀ u ∈ w.db.users, u.email ≠ some user.email) :
    registerUserResolver bcrypt salt user w =
      (.ok { isSuccess := true, message := "User registered successfully" },
       { db :=
           { users := w.db.users ++
               [{ id := w.db.nextId, isActive := some true, age := none,
                  name := some user.name, email := some user.email, role := none,
                  password := some (bcrypt.hash user.password 12 salt) }],
             seq := w.db.nextId },
         trace := w.trace ++ [DbOp.findOne user.email] ++
           [DbOp.create ⟨user.email, user.name, bcrypt.hash user.password 12 salt⟩] }) := by
  unfold registerUserResolver User.findOne
  rw [find_none_of_no_account _ _ h]
  simp only [User.create, any_false_of_no_account _ _ h]
  rfl

/-- Registration when the lookup finds a row: the duplicate error, and the
store untouched. -/
theorem registerUserResolver_duplicate (bcrypt : Bcrypt) (salt : String)
    (user : RegisterArgs) (w : World) (u : User)
    (h : w.db.users.find? (fun u => u.email == some user.email) = some u) :
    registerUserResolver bcrypt salt user w =
      (.error duplicateEmail, { w with trace := w.trace ++ [DbOp.findOne user.email] }) := by
  unfold registerUserResolver User.findOne
  rw [h]

/-- After a registration the store holds a row with the registered email. -/
theorem registerUserResolver_then_found (bcrypt : Bcrypt) (salt : String)
    (user : RegisterArgs) (w : World) :
    ∃ u, (registerUserResolver bcrypt salt user w).2.db.users.find?
      (fun u => u.email == some user.email) = some u := by
  cases hf : w.db.users.find? (fun u => u.email == some user.email) with
  | some u =>
    refine ⟨u, ?_⟩
    rw [registerUserResolver_duplicate bcrypt salt user w u hf]
    exact hf
  | none =>
    have hno : ∀ u ∈ w.db.users, u.email ≠ some user.email := by
      intro u hu
      have := List.find?_eq_none.1 hf u hu
      simpa using this
    rw [registerUserResolver_fresh bcrypt salt user w hno]
    simp [List.find?_append, hf]

/-- The toy token library rejects an absent token. -/
theorem demoJwt_rejectsAbsent : demoJwt.RejectsAbsent := by
  intro s t
  exact ⟨_, rfl⟩

/-- The toy token library refuses to sign without a secret. -/
theorem demoJwt_rejectsNoSecret : demoJwt.RejectsNoSecret := by
  intro c ttl t
  exact ⟨_, rfl⟩

/-- With an identity whose email is a non-empty string, `getUsers` is the
store query. -/
theorem getUsers_authenticated (args : PaginationInput) (ctx : Context) (w : World)
    (h : loggedEmailTruthy ctx = true) :
    getUsers args ctx w =
      (.ok (User.findAll ((args.page - 1) * args.count) args.count w).1,
       (User.findAll ((args.page - 1) * args.count) args.count w).2) := by
  unfold getUsers
  simp [h]

/-- With an identity that is absent or has no non-empty email, `getUsers`
fails before touching the store. -/
theorem getUsers_unauthenticated (args : PaginationInput) (ctx : Context) (w : World)
    (h : loggedEmailTruthy ctx = false) :
    getUsers args ctx w = (.error unauthorized, w) := by
  unfold getUsers
  simp [h]

/-- A payload with a non-empty email passes the check of `getUsers`. -/
theorem loggedEmailTruthy_of_email (p : JwtPayload) (e : String)
    (hemail : p.email = some e) (hne : e ≠ "") :
    loggedEmailTruthy ⟨some p⟩ = true := by
  simp [loggedEmailTruthy, hemail, hne]

/-- Rows returned by the store query for natural offset and limit. -/
theorem findAll_nat (offset limit : Nat) (w : World) :
    (User.findAll (offset : Int) (limit : Int) w).1 =
      (w.db.users.drop offset).take limit := by
  simp [User.findAll]

/-- The store query leaves the rows as they are. -/
theorem findAll_db (offset limit : Int) (w : World) :
    (User.findAll offset limit w).2.db = w.db := rfl

/-- Pages `1..k` requested in a row by an authenticated caller: the rows
returned are the first `k * count` rows, and the store is as before. -/
theorem getUsersPages_take (count : Nat) (ctx : Context)
    (h : loggedEmailTruthy ctx = true) (k : Nat) (w : World) :
    (getUsersPages count ctx k w).1 = .ok (w.db.users.take (k * count)) ∧
    (getUsersPages count ctx k w).2.db = w.db := by
  induction k with
  | zero => simp [getUsersPages]
  | succ k ih =>
    obtain ⟨ih1, ih2⟩ := ih
    unfold getUsersPages
    generalize getUsersPages (count : Int) ctx k w = r at ih1 ih2
    obtain ⟨res, w1⟩ := r
    simp only at ih1 ih2
    subst ih1
    simp only [getUsers_authenticated _ ctx w1 h]
    have hoff : ((k : Int) + 1 - 1) * (count : Int) = ((k * count : Nat) : Int) := by
      push_cast; ring
    rw [hoff, findAll_nat, findAll_db, ih2]
    refine ⟨?_, rfl⟩
    rw [Nat.succ_mul, List.take_add]

/-- The toy hasher verifies every password against its own hash. -/
theorem demoBcrypt_sound : demoBcrypt.Sound := by
  intro p rounds salt
  simp [demoBcrypt]

/-- Reading back the unary lifetime and the claim of a toy token. -/
theorem demoDecode_lifetime (b : Nat) (e : Option String) :
    demoDecode (List.replicate b 'x' ++
      (match e with
       | some s => '.' :: s.data
       | none => [','])) = some (0, b, e) := by
  induction b with
  | zero =>
    cases e with
    | none => simp [demoDecode]
    | some s => simp [demoDecode]
  | succ b ih =>
    rw [List.replicate_succ, List.cons_append, demoDecode, ih]
    simp

/-- Reading back a toy token gives what was encoded. -/
theorem demoDecode_encode (a b : Nat) (e : Option String) :
    demoDecode (demoEncode a b e).data = some (a, b, e) := by
  unfold demoEncode
  induction a with
  | zero => simpa using demoDecode_lifetime b e
  | succ a ih =>
    simp only at ih
    rw [List.replicate_succ, List.cons_append, demoDecode, ih]
    simp

/-- A toy token is never the empty string. -/
theorem demoEncode_ne_empty (a b : Nat) (e : Option String) : demoEncode a b e ≠ "" := by
  intro h
  have hd := congrArg String.data h
  cases e <;> simp [demoEncode] at hd

/-- Verification of a toy token under a non-empty secret: the encoded claim
before expiry, an error from then on. -/
theorem demoJwt_verify_encode (a b : Nat) (e : Option String) (s : String) (t : Nat)
    (hs : s ≠ "") :
    demoJwt.verify (some (demoEncode a b e)) (some s) t =
      if t < a + b then .ok ⟨e, a, a + b⟩
      else .error ⟨"TokenExpiredError", "jwt expired", none⟩ := by
  simp only [demoJwt, demoDecode_encode, if_neg hs]

/-- Signing with the toy library: a success comes from a non-empty secret and
is the encoding of issue time, lifetime and claim. -/
theorem demoJwt_sign_ok (c : JwtClaim) (s : String) (ttl t0 : Nat) (tok : String)
    (h : demoJwt.sign c (some s) ttl t0 = .ok tok) :
    s ≠ "" ∧ tok = demoEncode t0 ttl c.email := by
  by_cases hs : s = ""
  · simp [demoJwt, hs] at h
  · simp only [demoJwt, if_neg hs, Except.ok.injEq] at h
    exact ⟨hs, h.symm⟩

/-- The toy token library issues non-empty tokens under a non-empty secret. -/
theorem demoJwt_issues : demoJwt.Issues := by
  intro c s ttl now hs
  refine ⟨demoEncode now ttl c.email, ?_, demoEncode_ne_empty _ _ _⟩
  simp only [demoJwt, if_neg hs]

/-- The toy token library returns the signed claim before expiry. -/
theorem demoJwt_roundTrips : demoJwt.RoundTrips := by
  intro c s ttl t0 tok hsign t _ hlt
  obtain ⟨hs, htok⟩ := demoJwt_sign_ok c s ttl t0 tok hsign
  subst htok
  refine ⟨⟨c.email, t0, t0 + ttl⟩, ?_, rfl⟩
  rw [demoJwt_verify_encode _ _ _ _ _ hs, if_pos hlt]

/-- The toy token library rejects a token from its expiry on. -/
theorem demoJwt_expires : demoJwt.Expires := by
  intro c s ttl t0 tok hsign t hle
  obtain ⟨hs, htok⟩ := demoJwt_sign_ok c s ttl t0 tok hsign
  subst htok
  refine ⟨⟨"TokenExpiredError", "jwt expired", none⟩, ?_⟩
  rw [demoJwt_verify_encode _ _ _ _ _ hs, if_neg (Nat.not_lt.2 hle)]

/-- The identity built from a request whose token does not verify is null. -/
theorem context_of_error (jwt : Jwt) (env : Env) (now : Nat) (authorization : Option String)
    (e : JsError) (h : jwt.verify authorization env.JWT_SECRET now = .error e) :
    (context jwt env now authorization).1 = ⟨none⟩ := by
  simp [context, h]

/-- The identity built from a request whose token verifies is the payload. -/
theorem context_of_ok (jwt : Jwt) (env : Env) (now : Nat) (authorization : Option String)
    (p : JwtPayload) (h : jwt.verify authorization env.JWT_SECRET now = .ok p) :
    (context jwt env now authorization).1 = ⟨some p⟩ := by
  simp [context, h]

/-- Login right after a fresh registration with the same email and password,
when the hasher is sound: the outcome is that of signing the claim. -/
theorem login_after_register (bcrypt : Bcrypt) (jwt : Jwt) (env : Env) (now : Nat)
    (salt u name p : String) (w : World) (hhash : bcrypt.Sound)
    (hnone : ∀ v ∈ w.db.users, v.email ≠ some u) :
    (loginResolver bcrypt jwt env now ⟨u, p⟩
        (registerUserResolver bcrypt salt ⟨u, name, p⟩ w).2).1 =
      match jwt.sign ⟨some u⟩ env.JWT_SECRET expiresIn now with
      | .error e => .error e
      | .ok t => .ok { isSuccess := true, message := "login succeeded", token := t } := by
  rw [registerUserResolver_fresh bcrypt salt ⟨u, name, p⟩ w hnone]
  have hf : (w.db.users ++
        [({ id := w.db.nextId, isActive := some true, age := none, name := some name,
            email := some u, role := none,
            password := some (bcrypt.hash p 12 salt) } : User)]).find?
        (fun v => v.email == some u) =
      some { id := w.db.nextId, isActive := some true, age := none, name := some name,
             email := some u, role := none,
             password := some (bcrypt.hash p 12 salt) } := by
    simp [List.find?_append, find_none_of_no_account _ _ hnone]
  rw [loginResolver_found bcrypt jwt env now ⟨u, p⟩ _ _ hf]
  simp only [hhash p 12 salt]

/-! ## The claims -/

/-- C1: login fails with one and the same error, `Error("Invalid Credentials")`,
when the store has no account for the email and when the account found does
not verify the password. -/
theorem login_failures_indistinguishable (bcrypt : Bcrypt) (jwt : Jwt) (env : Env)
    (now1 now2 : Nat) (args1 args2 : LoginArgs) (w1 w2 : World) (u : User)
    (habsent : ∀ v ∈ w1.db.users, v.email ≠ some args1.email)
    (hfound : (User.findOne args2.email w2).1 = some u)
    (hmismatch : bcrypt.compare args2.password u.password = .ok false) :
    (loginResolver bcrypt jwt env now1 args1 w1).1 = .error invalidCredentials ∧
    (loginResolver bcrypt jwt env now2 args2 w2).1 = .error invalidCredentials ∧
    (loginResolver bcrypt jwt env now1 args1 w1).1 =
      (loginResolver bcrypt jwt env now2 args2 w2).1 := by
  have h1 := loginResolver_absent bcrypt jwt env now1 args1 w1
    (find_none_of_no_account _ _ habsent)
  have h2 : (loginResolver bcrypt jwt env now2 args2 w2).1 = .error invalidCredentials := by
    rw [loginResolver_found bcrypt jwt env now2 args2 w2 u hfound, hmismatch]
  exact ⟨h1, h2, h1.trans h2.symm⟩

/-- C1, an instance: an unknown email and a wrong password on the demo store. -/
theorem login_failures_indistinguishable_witness :
    (∀ v ∈ (World.mk demoStore []).db.users, v.email ≠ some "nonexistent@x.com") ∧
    ((loginResolver demoBcrypt demoJwt ⟨some "k"⟩ 0
        ⟨"nonexistent@x.com", "anything"⟩ ⟨demoStore, []⟩).1 = .error invalidCredentials ∧
     (loginResolver demoBcrypt demoJwt ⟨some "k"⟩ 0
        ⟨"real@x.com", "wrongpass"⟩ ⟨demoStore, []⟩).1 = .error invalidCredentials ∧
     (loginResolver demoBcrypt demoJwt ⟨some "k"⟩ 0
        ⟨"nonexistent@x.com", "anything"⟩ ⟨demoStore, []⟩).1 =
      (loginResolver demoBcrypt demoJwt ⟨some "k"⟩ 0
        ⟨"real@x.com", "wrongpass"⟩ ⟨demoStore, []⟩).1) :=
  ⟨by decide,
   login_failures_indistinguishable demoBcrypt demoJwt ⟨some "k"⟩ 0 0
     ⟨"nonexistent@x.com", "anything"⟩ ⟨"real@x.com", "wrongpass"⟩
     ⟨demoStore, []⟩ ⟨demoStore, []⟩ demoUser
     (by decide) (by decide) (by simp [demoBcrypt, demoUser])⟩

/-- C2: on a store with no account for the email, registration succeeds with
the message `User registered successfully` and appends exactly one row, whose
email and name are the inputs and whose password column is the bcrypt hash of
the password at cost 12; that column is not the plaintext whenever the hasher
does not return its input. -/
theorem register_stores_hash (bcrypt : Bcrypt) (salt : String)
    (user : RegisterArgs) (w : World)
    (hnone : ∀ u ∈ w.db.users, u.email ≠ some user.email)
    (hhash : bcrypt.hash user.password 12 salt ≠ user.password) :
    (registerUserResolver bcrypt salt user w).1 =
      .ok { isSuccess := true, message := "User registered successfully" } ∧
    ∃ row : User,
      (registerUserResolver bcrypt salt user w).2.db.users = w.db.users ++ [row] ∧
      row.email = some user.email ∧
      row.name = some user.name ∧
      row.password = some (bcrypt.hash user.password 12 salt) ∧
      row.password ≠ some user.password := by
  rw [registerUserResolver_fresh bcrypt salt user w hnone]
  refine ⟨rfl, _, rfl, rfl, rfl, rfl, ?_⟩
  simpa using hhash

/-- C2, an instance: registering on the empty store with the demo hasher. -/
theorem register_stores_hash_witness :
    (∀ u ∈ (World.mk emptyStore []).db.users, u.email ≠ some "u@x.com") ∧
    demoBcrypt.hash "pw123" 12 "salt" ≠ "pw123" ∧
    ((registerUserResolver demoBcrypt "salt" ⟨"u@x.com", "U", "pw123"⟩
        ⟨emptyStore, []⟩).1 =
      .ok { isSuccess := true, message := "User registered successfully" } ∧
    ∃ row : User,
      (registerUserResolver demoBcrypt "salt" ⟨"u@x.com", "U", "pw123"⟩
        ⟨emptyStore, []⟩).2.db.users = (World.mk emptyStore []).db.users ++ [row] ∧
      row.email = some "u@x.com" ∧
      row.name = some "U" ∧
      row.password = some (demoBcrypt.hash "pw123" 12 "salt") ∧
      row.password ≠ some "pw123") :=
  ⟨by decide, by decide,
   register_stores_hash demoBcrypt "salt" ⟨"u@x.com", "U", "pw123"⟩ ⟨emptyStore, []⟩
     (by decide) (by decide)⟩

/-- C3: of two registrations with the same email run one after the other, the
second fails with the duplicate-email error (code `DUPLICATE_EMAIL`) and leaves
the store exactly as the first call left it. -/
theorem second_register_is_duplicate (bcrypt : Bcrypt) (salt1 salt2 : String)
    (email name1 password1 name2 password2 : String) (w : World) :
    (registerUserResolver bcrypt salt2 ⟨email, name2, password2⟩
        (registerUserResolver bcrypt salt1 ⟨email, name1, password1⟩ w).2).1 =
      .error duplicateEmail ∧
    duplicateEmail.code = some "DUPLICATE_EMAIL" ∧
    (registerUserResolver bcrypt salt2 ⟨email, name2, password2⟩
        (registerUserResolver bcrypt salt1 ⟨email, name1, password1⟩ w).2).2.db =
      (registerUserResolver bcrypt salt1 ⟨email, name1, password1⟩ w).2.db := by
  obtain ⟨u, hu⟩ := registerUserResolver_then_found bcrypt salt1 ⟨email, name1, password1⟩ w
  rw [registerUserResolver_duplicate bcrypt salt2 ⟨email, name2, password2⟩ _ u hu]
  exact ⟨rfl, rfl, rfl⟩

/-- C4: with an anonymous identity `getUsers` fails with `Error("UNAUTHORIZED")`
whatever the pagination input and the store, and the world is returned as it
was received: no call is made on the store. -/
theorem getUsers_anonymous (args : PaginationInput) (w : World) :
    getUsers args ⟨none⟩ w = (.error unauthorized, w) := by
  rfl

/-- C5: the context hook always returns a context. When the library rejects
an absent token, an absent authorization header gives the null identity; any
verification failure gives the null identity; and a token that verifies gives
the verified payload, hence the email of its claim, as identity. -/
theorem context_identity (jwt : Jwt) (env : Env) (now : Nat)
    (authorization : Option String) (hlib : jwt.RejectsAbsent) :
    (authorization = none → (context jwt env now authorization).1.loggedUser = none) ∧
    (∀ e, jwt.verify authorization env.JWT_SECRET now = .error e →
      (context jwt env now authorization).1.loggedUser = none) ∧
    (∀ p, jwt.verify authorization env.JWT_SECRET now = .ok p →
      (context jwt env now authorization).1.loggedUser = some p) := by
  refine ⟨?_, ?_, ?_⟩
  · intro ha
    subst ha
    obtain ⟨e, he⟩ := hlib env.JWT_SECRET now
    simp [context, he]
  · intro e he
    simp [context, he]
  · intro p hp
    simp [context, hp]

/-- C5, an instance: a request without authorization header, toy library. -/
theorem context_identity_witness :
    demoJwt.RejectsAbsent ∧
    ((none = (none : Option String) →
        (context demoJwt ⟨some "k"⟩ 0 none).1.loggedUser = none) ∧
     (∀ e, demoJwt.verify none (Env.mk (some "k")).JWT_SECRET 0 = .error e →
        (context demoJwt ⟨some "k"⟩ 0 none).1.loggedUser = none) ∧
     (∀ p, demoJwt.verify none (Env.mk (some "k")).JWT_SECRET 0 = .ok p →
        (context demoJwt ⟨some "k"⟩ 0 none).1.loggedUser = some p)) :=
  ⟨demoJwt_rejectsAbsent,
   context_identity demoJwt ⟨some "k"⟩ 0 none demoJwt_rejectsAbsent⟩

/-- C6: when the store holds an account for the email, its stored hash
verifies the password and the token library issues a token for the claim with
that email and a lifetime of 24 hours, login returns success, the message
`login succeeded` and that token, and the store is left as it was. -/
theorem login_success (bcrypt : Bcrypt) (jwt : Jwt) (env : Env) (now : Nat)
    (args : LoginArgs) (w : World) (u : User) (tok : String)
    (hfound : (User.findOne args.email w).1 = some u)
    (hmatch : bcrypt.compare args.password u.password = .ok true)
    (hsign : jwt.sign ⟨some args.email⟩ env.JWT_SECRET (24 * 60 * 60) now = .ok tok) :
    (loginResolver bcrypt jwt env now args w).1 =
      .ok { isSuccess := true, message := "login succeeded", token := tok } ∧
    (loginResolver bcrypt jwt env now args w).2.db = w.db := by
  refine ⟨?_, loginResolver_db bcrypt jwt env now args w⟩
  have hemail := email_of_find _ _ _ hfound
  rw [loginResolver_found bcrypt jwt env now args w u hfound, hmatch]
  simp only [hemail, expiresIn, hsign]

/-- C6, an instance: the right password on the demo store. -/
theorem login_success_witness :
    (User.findOne "real@x.com" ⟨demoStore, []⟩).1 = some demoUser ∧
    ((loginResolver demoBcrypt demoJwt ⟨some "k"⟩ 0 ⟨"real@x.com", "secret"⟩
        ⟨demoStore, []⟩).1 =
      .ok { isSuccess := true, message := "login succeeded",
            token := demoEncode 0 (24 * 60 * 60) (some "real@x.com") } ∧
     (loginResolver demoBcrypt demoJwt ⟨some "k"⟩ 0 ⟨"real@x.com", "secret"⟩
        ⟨demoStore, []⟩).2.db = demoStore) :=
  ⟨by decide,
   login_success demoBcrypt demoJwt ⟨some "k"⟩ 0 ⟨"real@x.com", "secret"⟩
     ⟨demoStore, []⟩ demoUser (demoEncode 0 (24 * 60 * 60) (some "real@x.com"))
     (by decide) (by simp [demoBcrypt, demoUser]) rfl⟩

/-- C8: with an anonymous identity, `getUserByID` returns the stored account
and `profile` returns the empty object; neither fails with `UNAUTHORIZED`. -/
theorem getUserByID_anonymous_returns_account :
    (getUserByID 1 ⟨none⟩ ⟨demoStore, []⟩).1 = .ok (some demoUser) ∧
    (getUsers ⟨1, 10⟩ ⟨none⟩ ⟨demoStore, []⟩).1 = .error unauthorized ∧
    profile = [] := by
  refine ⟨?_, rfl, rfl⟩
  simp [getUserByID, User.findByPk, demoStore, demoUser]

/-- C9, refuted as stated: with no secret configured, a login with an unknown
email fails with `Invalid Credentials`, which is not the error raised for a
missing secret. -/
theorem login_without_secret_unknown_email :
    demoJwt.sign ⟨some "nonexistent@x.com"⟩ none expiresIn 0 = .error missingSecret ∧
    (loginResolver demoBcrypt demoJwt ⟨none⟩ 0 ⟨"nonexistent@x.com", "anything"⟩
        ⟨demoStore, []⟩).1 = .error invalidCredentials ∧
    invalidCredentials ≠ missingSecret := by
  refine ⟨rfl, ?_, by decide⟩
  exact loginResolver_absent _ _ _ _ _ _ (by decide)

/-- C9, amended: when no secret is configured and the token library refuses to
sign without one, no login call returns a token. With an account for the email
whose hash verifies the password the call fails with the error of the token
library; with no account, or a password that does not verify, it fails with
`Invalid Credentials`. -/
theorem login_without_secret (bcrypt : Bcrypt) (jwt : Jwt) (env : Env) (now : Nat)
    (args : LoginArgs) (w : World)
    (hsecret : env.JWT_SECRET = none) (hlib : jwt.RejectsNoSecret) :
    (∀ r, (loginResolver bcrypt jwt env now args w).1 ≠ .ok r) ∧
    (∀ u, (User.findOne args.email w).1 = some u →
      bcrypt.compare args.password u.password = .ok true →
      ∃ e, jwt.sign ⟨some args.email⟩ none expiresIn now = .error e ∧
        (loginResolver bcrypt jwt env now args w).1 = .error e) ∧
    ((User.findOne args.email w).1 = none →
      (loginResolver bcrypt jwt env now args w).1 = .error invalidCredentials) ∧
    (∀ u, (User.findOne args.email w).1 = some u →
      bcrypt.compare args.password u.password = .ok false →
      (loginResolver bcrypt jwt env now args w).1 = .error invalidCredentials) := by
  refine ⟨?_, ?_, ?_, ?_⟩
  · intro r
    cases hf : w.db.users.find? (fun u => u.email == some args.email) with
    | none => rw [loginResolver_absent _ _ _ _ _ _ hf]; simp
    | some u =>
      rw [loginResolver_found _ _ _ _ _ _ u hf, hsecret]
      obtain ⟨e, he⟩ := hlib ⟨u.email⟩ expiresIn now
      cases bcrypt.compare args.password u.password with
      | error e1 => simp
      | ok b => cases b <;> simp [he]
  · intro u hf hc
    obtain ⟨e, he⟩ := hlib ⟨some args.email⟩ expiresIn now
    refine ⟨e, he, ?_⟩
    rw [loginResolver_found _ _ _ _ _ _ u hf, hc, hsecret, email_of_find _ _ _ hf]
    simp only [he]
  · intro hf
    exact loginResolver_absent _ _ _ _ _ _ hf
  · intro u hf hc
    rw [loginResolver_found _ _ _ _ _ _ u hf, hc]

/-- C9 amended, an instance: the right password on the demo store, no secret. -/
theorem login_without_secret_witness :
    (Env.mk none).JWT_SECRET = none ∧ demoJwt.RejectsNoSecret ∧
    ((∀ r, (loginResolver demoBcrypt demoJwt ⟨none⟩ 0 ⟨"real@x.com", "secret"⟩
        ⟨demoStore, []⟩).1 ≠ .ok r) ∧
    (∀ u, (User.findOne "real@x.com" ⟨demoStore, []⟩).1 = some u →
      demoBcrypt.compare "secret" u.password = .ok true →
      ∃ e, demoJwt.sign ⟨some "real@x.com"⟩ none expiresIn 0 = .error e ∧
        (loginResolver demoBcrypt demoJwt ⟨none⟩ 0 ⟨"real@x.com", "secret"⟩
          ⟨demoStore, []⟩).1 = .error e) ∧
    ((User.findOne "real@x.com" ⟨demoStore, []⟩).1 = none →
      (loginResolver demoBcrypt demoJwt ⟨none⟩ 0 ⟨"real@x.com", "secret"⟩
        ⟨demoStore, []⟩).1 = .error invalidCredentials) ∧
    (∀ u, (User.findOne "real@x.com" ⟨demoStore, []⟩).1 = some u →
      demoBcrypt.compare "secret" u.password = .ok false →
      (loginResolver demoBcrypt demoJwt ⟨none⟩ 0 ⟨"real@x.com", "secret"⟩
        ⟨demoStore, []⟩).1 = .error invalidCredentials)) :=
  ⟨rfl, demoJwt_rejectsNoSecret,
   login_without_secret demoBcrypt demoJwt ⟨none⟩ 0 ⟨"real@x.com", "secret"⟩
     ⟨demoStore, []⟩ rfl demoJwt_rejectsNoSecret⟩

/-- C10: for an identity with a non-empty email, a count `count ≥ 0` and a page
`page ≥ 1`, `getUsers` returns the rows of the table from offset
`(page - 1) * count`, at most `count` of them; and the results of pages
`1..k`, concatenated, are the first `min (k * count) n` rows of the `n` in the
table. -/
theorem getUsers_pages (p : JwtPayload) (e : String) (page count : Nat) (w : World)
    (hemail : p.email = some e) (hne : e ≠ "") (hpage : 1 ≤ page) :
    (getUsers ⟨(page : Int), (count : Int)⟩ ⟨some p⟩ w).1 =
      .ok ((w.db.users.drop ((page - 1) * count)).take count) ∧
    ∀ k : Nat, (getUsersPages (count : Int) ⟨some p⟩ k w).1 =
      .ok (w.db.users.take (min (k * count) w.db.users.length)) := by
  have hauth := loggedEmailTruthy_of_email p e hemail hne
  constructor
  · rw [getUsers_authenticated _ _ w hauth]
    have hoff : ((page : Int) - 1) * (count : Int) = (((page - 1) * count : Nat) : Int) := by
      push_cast [Nat.cast_sub hpage]; ring
    simp only [hoff, findAll_nat]
  · intro k
    rw [(getUsersPages_take count _ hauth k w).1]
    congr 1
    rcases Nat.le_total (k * count) w.db.users.length with hle | hle
    · rw [Nat.min_eq_left hle]
    · rw [Nat.min_eq_right hle, List.take_length, List.take_of_length_le hle]

/-- C10, an instance: page 1 of size 1 on the demo store. -/
theorem getUsers_pages_witness :
    (JwtPayload.mk (some "real@x.com") 0 86400).email = some "real@x.com" ∧
    "real@x.com" ≠ "" ∧ 1 ≤ 1 ∧
    ((getUsers ⟨((1 : Nat) : Int), ((1 : Nat) : Int)⟩
        ⟨some ⟨some "real@x.com", 0, 86400⟩⟩ ⟨demoStore, []⟩).1 =
      .ok (((World.mk demoStore []).db.users.drop ((1 - 1) * 1)).take 1) ∧
    ∀ k : Nat, (getUsersPages ((1 : Nat) : Int)
        ⟨some ⟨some "real@x.com", 0, 86400⟩⟩ k ⟨demoStore, []⟩).1 =
      .ok ((World.mk demoStore []).db.users.take
        (min (k * 1) (World.mk demoStore []).db.users.length))) :=
  ⟨rfl, by decide, by decide,
   getUsers_pages ⟨some "real@x.com", 0, 86400⟩ "real@x.com" 1 1 ⟨demoStore, []⟩
     rfl (by decide) (by decide)⟩

/-- C7, refuted as stated: with the empty string as email, registration and
login succeed and the token verifies, yet `getUsers` with that token fails with
`UNAUTHORIZED`, because the empty email of the identity is falsy. -/
theorem empty_email_scenario_unauthorized :
    demoBcrypt.Sound ∧ demoJwt.Issues ∧ demoJwt.RoundTrips ∧ demoJwt.Expires ∧
    (∀ v ∈ (World.mk emptyStore []).db.users, v.email ≠ some "") ∧
    (registerUserResolver demoBcrypt "salt" ⟨"", "U", "pw123"⟩ ⟨emptyStore, []⟩).1 =
      .ok { isSuccess := true, message := "User registered successfully" } ∧
    (loginResolver demoBcrypt demoJwt ⟨some "k"⟩ 0 ⟨"", "pw123"⟩
        (registerUserResolver demoBcrypt "salt" ⟨"", "U", "pw123"⟩ ⟨emptyStore, []⟩).2).1 =
      .ok { isSuccess := true, message := "login succeeded",
            token := demoEncode 0 expiresIn (some "") } ∧
    demoEncode 0 expiresIn (some "") ≠ "" ∧
    (getUsers ⟨1, 10⟩
        (context demoJwt ⟨some "k"⟩ 0 (some (demoEncode 0 expiresIn (some "")))).1
        (registerUserResolver demoBcrypt "salt" ⟨"", "U", "pw123"⟩ ⟨emptyStore, []⟩).2).1 =
      .error unauthorized := by
  have hnone : ∀ v ∈ (World.mk emptyStore []).db.users, v.email ≠ some "" := by decide
  refine ⟨demoBcrypt_sound, demoJwt_issues, demoJwt_roundTrips, demoJwt_expires, hnone,
    ?_, ?_, demoEncode_ne_empty _ _ _, ?_⟩
  · rw [registerUserResolver_fresh demoBcrypt "salt" ⟨"", "U", "pw123"⟩ _ hnone]
  · rw [login_after_register demoBcrypt demoJwt ⟨some "k"⟩ 0 "salt" "" "U" "pw123" _
      demoBcrypt_sound hnone]
    rfl
  · have hv : demoJwt.verify (some (demoEncode 0 expiresIn (some "")))
        (Env.mk (some "k")).JWT_SECRET 0 = .ok ⟨some "", 0, 0 + expiresIn⟩ := by
      rw [demoJwt_verify_encode _ _ _ _ _ (by decide), if_pos (by decide)]
    rw [context_of_ok _ _ _ _ _ hv, getUsers_unauthenticated _ _ _ (by decide)]

/-- C7, amended: assume a hasher that verifies a password against its hash and
a token library that, given a non-empty secret, issues non-empty tokens, that
returns the signed claim before expiry, fails from expiry on, and rejects an
absent token. Then for a configured, non-empty secret, a store without an
account for a non-empty email `u` and any password `p`: registration succeeds;
a following login succeeds with a non-empty token; `getUsers` on a request
carrying that token before its expiry returns rows; and `getUsers` on a
request with no token, or with that token from its expiry on, fails with
`UNAUTHORIZED`. -/
theorem register_login_query_scenario (bcrypt : Bcrypt) (jwt : Jwt)
    (secret salt u name p : String) (t0 : Nat) (w : World)
    (hhash : bcrypt.Sound) (hissue : jwt.Issues) (hround : jwt.RoundTrips)
    (hexp : jwt.Expires) (habsent : jwt.RejectsAbsent)
    (hsecret : secret ≠ "")
    (hnone : ∀ v ∈ w.db.users, v.email ≠ some u) (hu : u ≠ "") :
    (registerUserResolver bcrypt salt ⟨u, name, p⟩ w).1 =
      .ok { isSuccess := true, message := "User registered successfully" } ∧
    ∃ tok : String,
      (loginResolver bcrypt jwt ⟨some secret⟩ t0 ⟨u, p⟩
          (registerUserResolver bcrypt salt ⟨u, name, p⟩ w).2).1 =
        .ok { isSuccess := true, message := "login succeeded", token := tok } ∧
      tok ≠ "" ∧
      (∀ (t : Nat) (pg : PaginationInput) (w2 : World), t0 ≤ t → t < t0 + 24 * 60 * 60 →
        ∃ rows, (getUsers pg (context jwt ⟨some secret⟩ t (some tok)).1 w2).1 = .ok rows) ∧
      (∀ (t : Nat) (pg : PaginationInput) (w2 : World),
        getUsers pg (context jwt ⟨some secret⟩ t none).1 w2 = (.error unauthorized, w2)) ∧
      (∀ (t : Nat) (pg : PaginationInput) (w2 : World), t0 + 24 * 60 * 60 ≤ t →
        getUsers pg (context jwt ⟨some secret⟩ t (some tok)).1 w2 =
          (.error unauthorized, w2)) := by
  refine ⟨by rw [registerUserResolver_fresh bcrypt salt ⟨u, name, p⟩ w hnone], ?_⟩
  obtain ⟨tok, hsign, htok⟩ := hissue ⟨some u⟩ secret expiresIn t0 hsecret
  refine ⟨tok, ?_, htok, ?_, ?_, ?_⟩
  · rw [login_after_register bcrypt jwt ⟨some secret⟩ t0 salt u name p w hhash hnone]
    simp only [hsign]
  · intro t pg w2 hle hlt
    obtain ⟨pl, hv, hemail⟩ := hround ⟨some u⟩ secret expiresIn t0 tok hsign t hle hlt
    rw [context_of_ok jwt ⟨some secret⟩ t (some tok) pl hv,
      getUsers_authenticated pg _ w2 (loggedEmailTruthy_of_email pl u hemail hu)]
    exact ⟨_, rfl⟩
  · intro t pg w2
    obtain ⟨e, he⟩ := habsent (some secret) t
    rw [context_of_error jwt ⟨some secret⟩ t none e he]
    rfl
  · intro t pg w2 hle
    obtain ⟨e, he⟩ := hexp ⟨some u⟩ secret expiresIn t0 tok hsign t hle
    rw [context_of_error jwt ⟨some secret⟩ t (some tok) e he]
    rfl

/-- C7 amended, an instance: the scenario for `u@x.com` and `pw123` on the
empty store, with the toy libraries. -/
theorem register_login_query_scenario_witness :
    demoBcrypt.Sound ∧ demoJwt.Issues ∧ demoJwt.RoundTrips ∧ demoJwt.Expires ∧
    demoJwt.RejectsAbsent ∧ "k" ≠ "" ∧
    (∀ v ∈ (World.mk emptyStore []).db.users, v.email ≠ some "u@x.com") ∧
    "u@x.com" ≠ "" ∧
    ((registerUserResolver demoBcrypt "salt" ⟨"u@x.com", "U", "pw123"⟩ ⟨emptyStore, []⟩).1 =
      .ok { isSuccess := true, message := "User registered successfully" } ∧
    ∃ tok : String,
      (loginResolver demoBcrypt demoJwt ⟨some "k"⟩ 0 ⟨"u@x.com", "pw123"⟩
          (registerUserResolver demoBcrypt "salt" ⟨"u@x.com", "U", "pw123"⟩
            ⟨emptyStore, []⟩).2).1 =
        .ok { isSuccess := true, message := "login succeeded", token := tok } ∧
      tok ≠ "" ∧
      (∀ (t : Nat) (pg : PaginationInput) (w2 : World), 0 ≤ t → t < 0 + 24 * 60 * 60 →
        ∃ rows, (getUsers pg (context demoJwt ⟨some "k"⟩ t (some tok)).1 w2).1 = .ok rows) ∧
      (∀ (t : Nat) (pg : PaginationInput) (w2 : World),
        getUsers pg (context demoJwt ⟨some "k"⟩ t none).1 w2 = (.error unauthorized, w2)) ∧
      (∀ (t : Nat) (pg : PaginationInput) (w2 : World), 0 + 24 * 60 * 60 ≤ t →
        getUsers pg (context demoJwt ⟨some "k"⟩ t (some tok)).1 w2 =
          (.error unauthorized, w2))) :=
  ⟨demoBcrypt_sound, demoJwt_issues, demoJwt_roundTrips, demoJwt_expires,
   demoJwt_rejectsAbsent, by decide, by decide, by decide,
   register_login_query_scenario demoBcrypt demoJwt "k" "salt" "u@x.com" "U" "pw123" 0
     ⟨emptyStore, []⟩ demoBcrypt_sound demoJwt_issues demoJwt_roundTrips demoJwt_expires
     demoJwt_rejectsAbsent (by decide) (by decide) (by decide)⟩

end WebServices
